import Mathlib

/-!
Shallow embedding of `worlds/Files.py`: the Archipelago patch-container
format (`APContainer` / `APPatch` / `APAutoPatchInterface` / `APDeltaPatch`),
the `AutoPatchRegister` metaclass registry, and the write-concurrency
semaphore.  External collaborators (the zip archive codec, the JSON codec,
`bsdiff4.diff` / `bsdiff4.patch`, the filesystem) are modelled abstractly:
archives are lists of named entries, manifests are association lists of JSON
values, and the diff primitives are opaque function parameters.
-/

/-- JSON values as carried by a container manifest (`json.dumps` / `json.load`
work on exactly these shapes here). -/
inductive JVal where
  | jnull
  | jint (n : Int)
  | jstr (s : String)
  | jarr (xs : List JVal)

/-- A parsed `archipelago.json` object: an ordered key/value mapping, as a
Python `dict` preserving insertion order. -/
abbrev Manifest := List (String × JVal)

/-- Python `dict` lookup `d[key]`: the first binding of `key` (keys are kept
unique by `assocSet`). -/
def assocGet {α : Type} : List (String × α) → String → Option α
  | [], _ => none
  | (k, v) :: rest, key => if k = key then some v else assocGet rest key

/-- Python `dict` assignment `d[key] = v`: replaces the value in place when
the key exists (keeping its position), appends otherwise. -/
def assocSet {α : Type} : List (String × α) → String → α → List (String × α)
  | [], key, v => [(key, v)]
  | (k, w) :: rest, key, v =>
    if k = key then (key, v) :: rest else (k, w) :: assocSet rest key v

/-- Compression mode of one archive entry (`zipfile.ZIP_DEFLATED` vs
`zipfile.ZIP_STORED`). -/
inductive CompressMode where
  | deflated
  | stored

/-- Content of one archive entry: either raw payload bytes, or bytes known to
parse as a JSON object (the JSON codec is external, so manifest entries carry
the parsed value directly). -/
inductive EntryData where
  | manifestData (m : Manifest)
  | bytes (bs : List Nat)

/-- One named entry of a zip archive, with its compression mode. -/
structure Entry where
  ename : String
  edata : EntryData
  emode : CompressMode

/-- A zip archive is its ordered list of entries. -/
abbrev Archive := List Entry

/-- Bytes obtained by `zipfile.ZipFile.read` on an entry.  For a manifest
entry this stands in for the serialized JSON text bytes; the exact JSON
encoding is the external codec's business and never inspected by the core. -/
def EntryData.rawBytes : EntryData → List Nat
  | .bytes bs => bs
  | .manifestData m =>
    ((m.map (fun kv => kv.1)).foldl (fun a b => a ++ b) "").toList.map Char.toNat

/-- `zipfile` entry lookup by name; with duplicate names the last written
entry wins (zipfile's NameToInfo dictionary is overwritten in write order). -/
def getEntry (ar : Archive) (name : String) : Option EntryData :=
  match ar with
  | [] => none
  | e :: rest =>
    match getEntry rest name with
    | some d => some d
    | none => if e.ename = name then some e.edata else none

/-- The `file` argument of `write` / `read`: a path string or a binary
stream.  A stream carries an optional `name` attribute (`None` for an
in-memory stream) and, for reading, the archive it contains. -/
inductive PyFile where
  | named (s : String)
  | stream (nm : Option String) (content : Archive)

/-- Python truthiness of a `file` argument: the empty path string is falsy,
any other path and every stream object is truthy. -/
def pyTruthyFile : PyFile → Bool
  | .named s => !s.isEmpty
  | .stream _ _ => true

/-- `zipfile.ZipFile(zip_file).filename`: the path string when opened on a
named file, the stream's `name` attribute (or `None`) otherwise. -/
def zfFilename : PyFile → Option String
  | .named s => some s
  | .stream nm _ => nm

/-- Opening a file for archive reading: a named file resolves through the
filesystem `fs`, a stream yields its own content. -/
def openArchive (fs : String → Option Archive) : PyFile → Option Archive
  | .named s => fs s
  | .stream _ content => some content

/-- `zip_file = file if file else self.path` in `write` / `read`. -/
def resolveFile (file : Option PyFile) (path : Option String) : Option PyFile :=
  match file with
  | some f => if pyTruthyFile f then some f else path.map PyFile.named
  | none => path.map PyFile.named

/-- Module-level `container_version: int = 6`. -/
def container_version : Int := 6

/-- Instance state of `APContainer`.  `player`, `player_name` and `server`
hold whatever JSON values `read_contents` assigned (their type hints in the
source are `Optional[int]` / `str` / `str`, but assignment from the manifest
is unchecked). -/
structure APContainer where
  path : Option String
  player : JVal
  player_name : JVal
  server : JVal

/-- Class attribute `version: int = container_version` (no subclass overrides
it). -/
def APContainer.version : Int := container_version

/-- JSON value of an `Optional[str]` attribute. -/
def optStr : Option String → JVal
  | none => .jnull
  | some s => .jstr s

/-- `APContainer.get_manifest`.  `game` is the class attribute
`game: Optional[str]` of the concrete type. -/
def APContainer.getManifest (c : APContainer) (game : Option String) : Manifest :=
  [("server", c.server),
   ("player", c.player),
   ("player_name", c.player_name),
   ("game", optStr game),
   ("compatible_version", .jint 5),
   ("version", .jint container_version)]

/-- Message of the version-gate exception raised in
`APContainer.read_contents`; it carries both version numbers. -/
def tooNewMsg (cv : Int) : String :=
  "File (version: " ++ toString cv ++ ") too new for this handler (version: "
    ++ toString APContainer.version ++ ")"

/-- `APContainer.read_contents`: parse `archipelago.json`, reject files whose
`compatible_version` exceeds the reader version, then assign `player`,
`server`, `player_name` in that order.  Returns the post state together with
the raised exception message, if any; on an exception the fields assigned
before the raise keep their new values, the rest keep their old ones,
mirroring Python's in-place mutation. -/
def APContainer.readContents (c : APContainer) (ar : Archive) : APContainer × Option String :=
  match getEntry ar "archipelago.json" with
  | none => (c, some "There is no item named archipelago.json in the archive")
  | some (.bytes _) => (c, some "Expecting value: line 1 column 1 (char 0)")
  | some (.manifestData m) =>
    match assocGet m "compatible_version" with
    | none => (c, some "compatible_version")
    | some (.jint cv) =>
      if APContainer.version < cv then
        (c, some (tooNewMsg cv))
      else
        match assocGet m "player" with
        | none => (c, some "player")
        | some pv =>
          match assocGet m "server" with
          | none => ({ c with player := pv }, some "server")
          | some sv =>
            match assocGet m "player_name" with
            | none => ({ c with player := pv, server := sv }, some "player_name")
            | some pn => ({ c with player := pv, server := sv, player_name := pn }, none)
    | some _ => (c, some "TypeError: unsupported comparison between dict value and int")

/-- `APContainer.write`: resolve the destination (explicit truthy argument
first, else the bound path), fail when neither resolves to a truthy value,
rebind `self.path` to the opened archive's filename when an explicit truthy
argument was given, and emit the manifest entry as `archipelago.json` in
deflate mode.  The `with semaphore` slot acquisition guards only concurrency
and is modelled separately by `semaphoreValue`. -/
def APContainer.write (c : APContainer) (file : Option PyFile) (game : Option String) :
    Except String (APContainer × Archive) :=
  match resolveFile file c.path with
  | none => .error "Cannot write APContainer due to no path provided."
  | some zf =>
    if pyTruthyFile zf then
      let c1 := match file with
        | some f => if pyTruthyFile f then { c with path := zfFilename zf } else c
        | none => c
      .ok (c1, [⟨"archipelago.json", .manifestData (APContainer.getManifest c1 game), .deflated⟩])
    else .error "Cannot write APContainer due to no path provided."

/-- Fixed hint appended by the `InvalidDataError` re-wrap in
`APContainer.read`. -/
def invalidDataHint : String := "This might be the incorrect world version for this file"

/-- The `InvalidDataError` message built in `APContainer.read`: the inner
exception's first textual argument, a separator, then the fixed hint. -/
def wrapInvalid (e : String) : String := e ++ " - " ++ invalidDataHint

/-- The `try read_contents except` re-wrap in `read`: a successful parse
passes through, an exception is re-raised as `InvalidDataError` with the
wrapped message.  Polymorphic in the instance state so `APContainer` and
`APDeltaPatch` share it, as they share the inherited `read`. -/
def readWrap {σ : Type} (p : σ × Option String) : σ × Option String :=
  match p with
  | (st, none) => (st, none)
  | (st, some e) => (st, some (wrapInvalid e))

/-- `APContainer.read`: resolve the source like `write` resolves the
destination, open the archive, rebind `self.path` when an explicit truthy
argument was given, run `read_contents`, and re-wrap any exception it raised
into a single `InvalidDataError`.  Returns post state and error message;
mutations performed before a raise persist. -/
def APContainer.read (c : APContainer) (file : Option PyFile) (fs : String → Option Archive) :
    APContainer × Option String :=
  match resolveFile file c.path with
  | none => (c, some "Cannot read APContainer due to no path provided.")
  | some zf =>
    if pyTruthyFile zf then
      match openArchive fs zf with
      | none => (c, some "BadZipFile: File is not a zip file")
      | some ar =>
        let c1 := match file with
          | some f => if pyTruthyFile f then { c with path := zfFilename zf } else c
          | none => c
        readWrap (APContainer.readContents c1 ar)
    else (c, some "Cannot read APContainer due to no path provided.")

/-- The class namespace (`dct`) of a newly declared handler type, as seen by
`AutoPatchRegister.__new__`: its own `game` and `patch_file_ending` entries,
when the class body defines them. -/
structure ClassDict where
  game : Option String
  patch_file_ending : Option String

/-- The two mappings of `AutoPatchRegister`: `patch_types` (game identifier
to type) and `file_endings` (file suffix to type); types are identified by
name here. -/
structure Registry where
  patch_types : List (String × String)
  file_endings : List (String × String)

/-- The registry before any handler type is declared. -/
def emptyRegistry : Registry := ⟨[], []⟩

/-- `AutoPatchRegister.__new__`: when the class body declares `game`, record
the type in `patch_types`, then require a truthy `patch_file_ending` (missing
key raises `KeyError`, empty string raises the registration exception) and
record the type in `file_endings`.  Returns the post registry together with
the raised exception message, if any; note the `patch_types` insertion
precedes the suffix check and survives a raise. -/
def Registry.declare (reg : Registry) (name : String) (dct : ClassDict) :
    Registry × Option String :=
  match dct.game with
  | none => (reg, none)
  | some g =>
    let reg1 : Registry := { reg with patch_types := assocSet reg.patch_types g name }
    match dct.patch_file_ending with
    | none => (reg1, some "patch_file_ending")
    | some pfe =>
      if pfe.isEmpty then
        (reg1, some ("Need an expected file ending for " ++ name))
      else
        ({ reg1 with file_endings := assocSet reg1.file_endings pfe name }, none)

/-- A sequence of class declarations applied to a registry (errors abort the
declaring module but leave the registry as mutated). -/
def Registry.declAll (reg : Registry) (ds : List (String × ClassDict)) : Registry :=
  ds.foldl (fun r d => (Registry.declare r d.1 d.2).1) reg

/-- A concrete handler class as seen by the classmethod
`get_source_data_with_cache`: its own name and its method-resolution order
(own name first, then ancestors). -/
structure HandlerCls where
  cname : String
  mro : List String

/-- The per-process `source_data` class attributes: which classes currently
have the attribute set, and to which bytes. -/
abbrev SrcCache := List (String × List Nat)

/-- Python attribute lookup along the MRO, as performed by
`hasattr(cls, "source_data")` / `cls.source_data`: the first class in the
resolution order holding the attribute wins. -/
def mroLookup (cache : SrcCache) : List String → Option (List Nat)
  | [] => none
  | n :: rest =>
    match assocGet cache n with
    | some v => some v
    | none => mroLookup cache rest

/-- `APDeltaPatch.get_source_data_with_cache`: if no class along the MRO has
`source_data`, compute `cls.get_source_data()` (abstracted as `gsd` keyed by
class name) and set it on `cls` itself; return the resolved bytes plus
whether `get_source_data` was invoked by this call. -/
def getSourceDataWithCache (gsd : String → List Nat) (cache : SrcCache) (cls : HandlerCls) :
    SrcCache × List Nat × Bool :=
  match mroLookup cache cls.mro with
  | some v => (cache, v, false)
  | none => (assocSet cache cls.cname (gsd cls.cname), gsd cls.cname, true)

/-- The `procedure` class attribute: `"custom"`, an ordered list of
(operation name, argument list) pairs, or the `None` that `APDeltaPatch`
assigns (its source line is marked for deletion once APPP lands). -/
inductive Procedure where
  | custom
  | steps (ps : List (String × List JVal))
  | pynone

/-- JSON encoding of the `procedure` attribute as `json.dumps` renders it:
tuples become arrays, `None` becomes `null`. -/
def Procedure.toJVal : Procedure → JVal
  | .custom => .jstr "custom"
  | .steps ps => .jarr (ps.map (fun p => .jarr [.jstr p.1, .jarr p.2]))
  | .pynone => .jnull

/-- `APPatch.get_manifest`: the base manifest, plus `procedure`, with
`compatible_version` overridden to 6.  `APAutoPatchInterface` does not
override `get_manifest`, so its manifests are produced by this same
function. -/
def APPatch.getManifest (c : APContainer) (game : Option String) (proc : Procedure) : Manifest :=
  assocSet (assocSet (APContainer.getManifest c game) "procedure" (Procedure.toJVal proc))
    "compatible_version" (.jint 6)

/-- Instance state of `APDeltaPatch`: the container fields plus `hash`,
`delta` and the produce-time `patched_path`. -/
structure APDeltaPatch where
  path : Option String
  player : JVal
  player_name : JVal
  server : JVal
  hash : Option String
  delta : Option (List Nat)
  patched_path : String

/-- The container-level view of an `APDeltaPatch` instance (the fields the
inherited `APContainer` code manipulates). -/
def APDeltaPatch.toContainer (d : APDeltaPatch) : APContainer :=
  ⟨d.path, d.player, d.player_name, d.server⟩

/-- The `procedure = None` class attribute of `APDeltaPatch`. -/
def APDeltaPatch.procedure : Procedure := .pynone

/-- `APDeltaPatch.get_manifest`: the patch manifest plus `base_checksum`,
`result_file_ending` and `patch_file_ending`, with `compatible_version`
overridden back to 5 (the source marks this line for deletion once APPP
lands). -/
def APDeltaPatch.getManifest (d : APDeltaPatch) (game : Option String) (proc : Procedure)
    (rfe pfe : String) : Manifest :=
  assocSet (assocSet (assocSet (assocSet
    (APPatch.getManifest (APDeltaPatch.toContainer d) game proc)
    "base_checksum" (optStr d.hash))
    "result_file_ending" (.jstr rfe))
    "patch_file_ending" (.jstr pfe))
    "compatible_version" (.jint 5)

/-- Python truthiness of `self.delta`: falsy when `None` or empty bytes. -/
def pyTruthyBytes : Option (List Nat) → Bool
  | none => false
  | some bs => !bs.isEmpty

/-- `APDeltaPatch.write_contents`: the inherited manifest entry, then the
delta entry `delta.bsdiff4` in `ZIP_STORED` mode, holding
`bsdiff4.diff(get_source_data_with_cache(), open(patched_path).read())`.
`diff` abstracts `bsdiff4.diff`; `bfs` abstracts plain-file reads.  Returns
the written entries and the updated source-data cache. -/
def APDeltaPatch.writeContents (diff : List Nat → List Nat → List Nat)
    (gsd : String → List Nat) (cls : HandlerCls) (cache : SrcCache)
    (d : APDeltaPatch) (game : Option String) (proc : Procedure) (rfe pfe : String)
    (bfs : String → Option (List Nat)) : Except String (Archive × SrcCache) :=
  let manifestEntry : Entry :=
    ⟨"archipelago.json", .manifestData (APDeltaPatch.getManifest d game proc rfe pfe), .deflated⟩
  let r := getSourceDataWithCache gsd cache cls
  match bfs d.patched_path with
  | none => .error ("No such file or directory: " ++ d.patched_path)
  | some patched =>
    .ok ([manifestEntry, ⟨"delta.bsdiff4", .bytes (diff r.2.1 patched), .stored⟩], r.1)

/-- `APDeltaPatch.read_contents`: the inherited manifest parsing, then
`self.delta = opened_zipfile.read("delta.bsdiff4")` (a missing entry raises
`KeyError`).  State-plus-exception convention as in
`APContainer.readContents`. -/
def APDeltaPatch.readContents (d : APDeltaPatch) (ar : Archive) :
    APDeltaPatch × Option String :=
  match APContainer.readContents (APDeltaPatch.toContainer d) ar with
  | (c1, some e) =>
    ({ d with player := c1.player, player_name := c1.player_name, server := c1.server }, some e)
  | (c1, none) =>
    let d1 := { d with player := c1.player, player_name := c1.player_name, server := c1.server }
    match getEntry ar "delta.bsdiff4" with
    | none => (d1, some "There is no item named delta.bsdiff4 in the archive")
    | some ed => ({ d1 with delta := some (EntryData.rawBytes ed) }, none)

/-- `APContainer.read` as inherited by `APDeltaPatch`: identical wrapper, but
dispatching to `APDeltaPatch.read_contents`. -/
def APDeltaPatch.read (d : APDeltaPatch) (file : Option PyFile) (fs : String → Option Archive) :
    APDeltaPatch × Option String :=
  match resolveFile file d.path with
  | none => (d, some "Cannot read APDeltaPatch due to no path provided.")
  | some zf =>
    if pyTruthyFile zf then
      match openArchive fs zf with
      | none => (d, some "BadZipFile: File is not a zip file")
      | some ar =>
        let d1 := match file with
          | some f => if pyTruthyFile f then { d with path := zfFilename zf } else d
          | none => d
        readWrap (APDeltaPatch.readContents d1 ar)
    else (d, some "Cannot read APDeltaPatch due to no path provided.")

/-- Observable outcome of one `APDeltaPatch.patch` call: the post instance
state, the post source-data cache, whether a full `read()` ran, and the
target path with the bytes written to it. -/
structure PatchResult where
  state : APDeltaPatch
  cache : SrcCache
  didRead : Bool
  targetPath : String
  written : List Nat

/-- Tail of `APDeltaPatch.patch` after the conditional read: compute
`bsdiff4.patch(get_source_data_with_cache(), self.delta)` and write it to the
target; a `None` delta makes the bsdiff call raise `TypeError`. -/
def patchFinish (bspatch : List Nat → List Nat → List Nat) (gsd : String → List Nat)
    (cls : HandlerCls) (cache : SrcCache) (d1 : APDeltaPatch) (didRead : Bool)
    (target : String) : Except String PatchResult :=
  match d1.delta with
  | none => .error "TypeError: a bytes-like object is required, not NoneType"
  | some del =>
    .ok ⟨d1, (getSourceDataWithCache gsd cache cls).1, didRead, target,
         bspatch (getSourceDataWithCache gsd cache cls).2.1 del⟩

/-- `APDeltaPatch.patch`: when `self.delta` is falsy run a full `read()`
(propagating its exception unwrapped), then apply and write via
`patchFinish`.  `bspatch` abstracts `bsdiff4.patch`. -/
def APDeltaPatch.patchOp (bspatch : List Nat → List Nat → List Nat)
    (gsd : String → List Nat) (cls : HandlerCls) (cache : SrcCache)
    (d : APDeltaPatch) (fs : String → Option Archive) (target : String) :
    Except String PatchResult :=
  if pyTruthyBytes d.delta then
    patchFinish bspatch gsd cls cache d false target
  else
    match APDeltaPatch.read d none fs with
    | (_, some e) => .error e
    | (d1, none) => patchFinish bspatch gsd cls cache d1 true target

/-- Module-level `semaphore = threading.Semaphore(os.cpu_count() or 4)`: the
capacity of the write-concurrency limiter as a function of what
`os.cpu_count()` returned (`none` models `None`; Python `or` substitutes 4
only for a falsy left operand). -/
def semaphoreValue (cpu_count : Option Nat) : Nat :=
  match cpu_count with
  | some k => if k ≠ 0 then k else 4
  | none => 4

/-- Filesystem for the C1 witness: one archive whose manifest demands
version 7. -/
def c1wFs : String → Option Archive :=
  fun s =>
    if s = "x.zip" then
      some [⟨"archipelago.json", .manifestData [("compatible_version", JVal.jint 7)], .deflated⟩]
    else none

/-- The shape the spec requires of a manifest `procedure` value: the literal
marker `"custom"`, or an array of (operation-name, argument-list) pairs. -/
def isProcedureVal : JVal → Bool
  | .jstr s => s == "custom"
  | .jarr xs =>
    xs.all (fun x =>
      match x with
      | .jarr [.jstr _, .jarr _] => true
      | _ => false)
  | _ => false

/-- Original container for the C3 witness. -/
def c3wC : APContainer := ⟨some "in.zip", .jint 3, .jstr "alice", .jstr "host:38281"⟩

/-- Archive the C3 witness writes and reads back. -/
def c3wAr : Archive :=
  [⟨"archipelago.json",
    .manifestData (APContainer.getManifest { c3wC with path := some "out.zip" } (some "G")),
    .deflated⟩]

/-- Invariant of the suffix mapping: every registered file suffix is
non-empty. -/
def suffixInvariant (reg : Registry) : Prop :=
  ∀ p ∈ reg.file_endings, p.1.isEmpty = false

/-- Per-type source data for the C8 counterexample: handler B derives
different base bytes than everyone else. -/
def c8gsd : String → List Nat := fun n => if n = "HandlerB" then [2] else [1]

/-- Handler type for the C8 witness. -/
def c8wCls : HandlerCls := ⟨"HandlerC", ["HandlerC", "APDeltaPatch"]⟩

/-- Container for the C10 witness, bound to a path. -/
def c10wC : APContainer := ⟨some "bound.zip", .jnull, .jstr "", .jstr ""⟩

/-- Filesystem for the C10 witness: an (empty) archive at the explicit
destination. -/
def c10wFs : String → Option Archive := fun s => if s = "w.zip" then some [] else none

/-- Manifest of the archive used by the C2 counterexample. -/
def c2Manifest : Manifest :=
  [("compatible_version", JVal.jint 5), ("player", JVal.jnull), ("server", JVal.jstr ""),
   ("player_name", JVal.jstr "")]

/-- Archive used by the C2 counterexample: a valid manifest plus a delta
entry. -/
def c2Archive : Archive :=
  [⟨"archipelago.json", .manifestData c2Manifest, .deflated⟩,
   ⟨"delta.bsdiff4", .bytes [9], .stored⟩]

/-- Filesystem used by the C2 counterexample. -/
def c2Fs : String → Option Archive := fun s => if s = "p.zip" then some c2Archive else none

/-- A DeltaPatch instance whose delta is loaded but empty. -/
def c2State : APDeltaPatch := ⟨some "p.zip", .jnull, .jstr "", .jstr "", none, some [], ""⟩

/-- Instance for the C2 witness: a non-empty delta is already loaded. -/
def c2wD : APDeltaPatch := ⟨none, .jnull, .jstr "", .jstr "", none, some [5], ""⟩

/-- Result of the C2 witness run: no read, the applied bytes written. -/
def c2wRes : PatchResult := ⟨c2wD, [("HandlerD", [1])], false, "t.bin", [1, 5]⟩

/-- DeltaPatch instance for the C6 claim, bound to a patched file. -/
def c6d : APDeltaPatch := ⟨none, .jnull, .jstr "", .jstr "", none, none, "p.bin"⟩

/-- Plain-file filesystem for the C6 claim: the patched file holds one
byte. -/
def c6bfs : String → Option (List Nat) := fun s => if s = "p.bin" then some [7] else none

/-- Claim C1: when the manifest declares `compatible_version` strictly greater
than the reader version, `read` fails with the wrapped version-gate error
whose message carries both version numbers (`tooNewMsg` spells out both), and
the instance's `player`, `player_name` and `server` fields keep their prior
values: only `path` is rebound, from the explicit file argument. -/
theorem c1_version_gate (c : APContainer) (f : PyFile) (fs : String → Option Archive)
    (ar : Archive) (m : Manifest) (cv : Int)
    (htruthy : pyTruthyFile f = true)
    (hopen : openArchive fs f = some ar)
    (hman : getEntry ar "archipelago.json" = some (.manifestData m))
    (hcv : assocGet m "compatible_version" = some (.jint cv))
    (hgt : APContainer.version < cv) :
    APContainer.read c (some f) fs =
      ({ c with path := zfFilename f }, some (wrapInvalid (tooNewMsg cv))) := by
  simp only [APContainer.read, resolveFile, htruthy, if_true, hopen,
    APContainer.readContents, hman, hcv, if_pos hgt, readWrap]

/-- Claim C1 witness: a reader of version 6 rejects a version-7 manifest and
leaves the player, player_name and server fields untouched. -/
theorem c1_version_gate_witness :
    APContainer.read ⟨none, .jnull, .jstr "", .jstr ""⟩ (some (.named "x.zip")) c1wFs =
      (⟨some "x.zip", .jnull, .jstr "", .jstr ""⟩, some (wrapInvalid (tooNewMsg 7))) :=
  c1_version_gate ⟨none, .jnull, .jstr "", .jstr ""⟩ (.named "x.zip") c1wFs _ _ 7
    rfl rfl rfl rfl (by decide)

/-- Claim C4 counterexample: the manifest emitted by a DeltaPatch (with its
declared class attributes) carries `compatible_version` 5, not 6. -/
theorem c4_counterexample :
    assocGet (APDeltaPatch.getManifest ⟨none, .jnull, .jstr "", .jstr "", none, none, ""⟩
        (some "G") APDeltaPatch.procedure ".sfc" ".apx") "compatible_version"
      = some (.jint 5) ∧
    JVal.jint 5 ≠ JVal.jint 6 := by
  refine ⟨rfl, ?_⟩
  simp

/-- Claim C4 amended: Patch and AutoApplyPatch manifests (both produced by
`APPatch.getManifest`, which `APAutoPatchInterface` inherits unchanged)
declare `compatible_version` 6; DeltaPatch overrides it back to 5, the value
a plain Container also declares. -/
theorem c4_compatible_versions (c : APContainer) (d : APDeltaPatch) (game : Option String)
    (proc : Procedure) (rfe pfe : String) :
    assocGet (APPatch.getManifest c game proc) "compatible_version" = some (.jint 6) ∧
    assocGet (APDeltaPatch.getManifest d game proc rfe pfe) "compatible_version"
      = some (.jint 5) ∧
    assocGet (APContainer.getManifest c game) "compatible_version" = some (.jint 5) :=
  ⟨rfl, rfl, rfl⟩

/-- Claim C5 counterexample: a DeltaPatch manifest (with the declared
`procedure = None` class attribute) carries `procedure = null`, which is
neither the marker `"custom"` nor a sequence of pairs. -/
theorem c5_counterexample :
    assocGet (APDeltaPatch.getManifest ⟨none, .jnull, .jstr "", .jstr "", none, none, ""⟩
        (some "G") APDeltaPatch.procedure ".sfc" ".apx") "procedure" = some .jnull ∧
    isProcedureVal .jnull = false :=
  ⟨rfl, rfl⟩

/-- Claim C5 amended: every manifest emitted by `APPatch.getManifest`
contains a `procedure` field, whose value satisfies the custom-or-pairs shape
for the default `"custom"` and for any pair sequence; but a DeltaPatch
manifest produced with its declared `procedure = None` carries `null`
instead. -/
theorem c5_procedure_field (c : APContainer) (d : APDeltaPatch) (game : Option String)
    (ps : List (String × List JVal)) (rfe pfe : String) :
    assocGet (APPatch.getManifest c game .custom) "procedure" = some (.jstr "custom") ∧
    isProcedureVal (Procedure.toJVal .custom) = true ∧
    assocGet (APPatch.getManifest c game (.steps ps)) "procedure"
      = some (Procedure.toJVal (.steps ps)) ∧
    isProcedureVal (Procedure.toJVal (.steps ps)) = true ∧
    assocGet (APDeltaPatch.getManifest d game APDeltaPatch.procedure rfe pfe) "procedure"
      = some .jnull := by
  refine ⟨rfl, rfl, rfl, ?_, rfl⟩
  simp only [Procedure.toJVal, isProcedureVal]
  rw [List.all_eq_true]
  intro x hx
  rw [List.mem_map] at hx
  obtain ⟨p, _, rfl⟩ := hx
  rfl

/-- Claim C9 counterexample: on a machine where `os.cpu_count()` returns 2,
the semaphore capacity is 2, below the claimed minimum of 4 (Python `or`
substitutes 4 only when `cpu_count` is falsy, i.e. `None`). -/
theorem c9_counterexample :
    semaphoreValue (some 2) = 2 ∧ ¬(4 ≤ semaphoreValue (some 2)) := by
  decide

/-- Claim C9 amended: the limiter capacity equals the processing-unit count
whenever `os.cpu_count()` reports one (any positive count, with no minimum
of 4), and falls back to 4 exactly when the count is unavailable. -/
theorem c9_semaphore_size (n : Nat) (h : 1 ≤ n) :
    semaphoreValue (some n) = n ∧ semaphoreValue none = 4 := by
  have hn : n ≠ 0 := by omega
  exact ⟨by simp [semaphoreValue, hn], rfl⟩

/-- Claim C9 witness: an 8-unit machine gives capacity 8 and an undetermined
count gives 4. -/
theorem c9_semaphore_size_witness :
    semaphoreValue (some 8) = 8 ∧ semaphoreValue none = 4 :=
  c9_semaphore_size 8 (by decide)

/-- Claim C3: writing a container to an explicit destination and reading the
written archive back into a fresh container succeeds and reproduces the
original `player`, `player_name` and `server` values. -/
theorem c3_container_round_trip (c c0 : APContainer) (game : Option String)
    (fs : String → Option Archive) (c1 : APContainer) (ar : Archive)
    (hw : APContainer.write c (some (.named "out.zip")) game = .ok (c1, ar)) :
    (APContainer.read c0 (some (.stream none ar)) fs).2 = none ∧
    (APContainer.read c0 (some (.stream none ar)) fs).1.player = c.player ∧
    (APContainer.read c0 (some (.stream none ar)) fs).1.player_name = c.player_name ∧
    (APContainer.read c0 (some (.stream none ar)) fs).1.server = c.server := by
  have hred : APContainer.write c (some (.named "out.zip")) game
      = .ok ({ c with path := some "out.zip" },
          [⟨"archipelago.json",
            .manifestData (APContainer.getManifest { c with path := some "out.zip" } game),
            .deflated⟩]) := rfl
  rw [hred] at hw
  obtain ⟨h1, h2⟩ := (Prod.mk.injEq ..).mp (Except.ok.inj hw)
  subst h2
  exact ⟨rfl, rfl, rfl, rfl⟩

/-- Claim C3 witness: a concrete container with player 3, name alice and a
server string round-trips through write and read. -/
theorem c3_container_round_trip_witness :
    (APContainer.read ⟨none, .jnull, .jstr "", .jstr ""⟩ (some (.stream none c3wAr))
      (fun _ => none)).2 = none ∧
    (APContainer.read ⟨none, .jnull, .jstr "", .jstr ""⟩ (some (.stream none c3wAr))
      (fun _ => none)).1.player = c3wC.player ∧
    (APContainer.read ⟨none, .jnull, .jstr "", .jstr ""⟩ (some (.stream none c3wAr))
      (fun _ => none)).1.player_name = c3wC.player_name ∧
    (APContainer.read ⟨none, .jnull, .jstr "", .jstr ""⟩ (some (.stream none c3wAr))
      (fun _ => none)).1.server = c3wC.server :=
  c3_container_round_trip c3wC ⟨none, .jnull, .jstr "", .jstr ""⟩ (some "G") (fun _ => none)
    { c3wC with path := some "out.zip" } c3wAr rfl

/-- Keys inserted by `assocSet` satisfy a predicate whenever the old keys and
the new key do. -/
theorem assocSet_forall {α : Type} (P : String → Prop) :
    ∀ (l : List (String × α)) (key : String) (v : α),
      (∀ p ∈ l, P p.1) → P key → ∀ p ∈ assocSet l key v, P p.1 := by
  intro l
  induction l with
  | nil =>
    intro key v _ hk p hp
    simp only [assocSet, List.mem_singleton] at hp
    subst hp
    exact hk
  | cons a rest ih =>
    intro key v hl hk p hp
    obtain ⟨k, w⟩ := a
    simp only [assocSet] at hp
    by_cases h : k = key
    · rw [if_pos h] at hp
      rcases List.mem_cons.mp hp with h1 | h1
      · subst h1; exact hk
      · exact hl p (List.mem_cons_of_mem _ h1)
    · rw [if_neg h] at hp
      rcases List.mem_cons.mp hp with h1 | h1
      · subst h1; exact hl (k, w) (List.mem_cons_self _ _)
      · exact ih key v (fun q hq => hl q (List.mem_cons_of_mem _ hq)) hk p h1

/-- One class declaration preserves the suffix invariant: only declarations
passing the non-empty check touch `file_endings`. -/
theorem declare_suffixInvariant (reg : Registry) (name : String) (dct : ClassDict)
    (h : suffixInvariant reg) : suffixInvariant (Registry.declare reg name dct).1 := by
  obtain ⟨g?, pfe?⟩ := dct
  cases g? with
  | none => exact h
  | some g =>
    cases pfe? with
    | none => exact h
    | some pfe =>
      by_cases he : pfe.isEmpty
      · simp only [Registry.declare, he, if_true]
        exact h
      · simp only [Registry.declare, he, if_false]
        intro p hp
        exact assocSet_forall (fun s => s.isEmpty = false) reg.file_endings pfe name h
          (by simpa using he) p hp

/-- Any sequence of class declarations preserves the suffix invariant. -/
theorem declAll_suffixInvariant (ds : List (String × ClassDict)) :
    ∀ reg, suffixInvariant reg → suffixInvariant (Registry.declAll reg ds) := by
  induction ds with
  | nil => intro reg h; exact h
  | cons d rest ih => intro reg h; exact ih _ (declare_suffixInvariant reg d.1 d.2 h)

/-- Claim C7 counterexample: declaring a qualifying handler type with an
empty file suffix does raise, but the registry is left holding the failed
type in `patch_types`, because the game registration precedes the suffix
check. -/
theorem c7_counterexample :
    (Registry.declare emptyRegistry "HandlerX" ⟨some "GameX", some ""⟩).1.patch_types
      = [("GameX", "HandlerX")] ∧
    ((Registry.declare emptyRegistry "HandlerX" ⟨some "GameX", some ""⟩).2).isSome = true :=
  ⟨rfl, rfl⟩

/-- Claim C7 amended: declaring a qualifying handler type with an empty file
suffix is a construction-time error, and every suffix key in `file_endings`
stays non-empty across any sequence of declarations; `patch_types`, however,
retains a type whose declaration failed, since the game registration happens
before the suffix check. -/
theorem c7_registry_invariant (reg : Registry) (ds : List (String × ClassDict))
    (name g : String) (hinv : suffixInvariant reg) :
    suffixInvariant (Registry.declAll reg ds) ∧
    ((Registry.declare reg name ⟨some g, some ""⟩).2).isSome = true :=
  ⟨declAll_suffixInvariant ds reg hinv, rfl⟩

/-- Claim C7 witness: two well-formed declarations keep the suffix invariant,
and a concrete empty-suffix declaration raises. -/
theorem c7_registry_invariant_witness :
    suffixInvariant (Registry.declAll emptyRegistry
      [("HandlerA", ⟨some "GameA", some ".apa"⟩), ("HandlerB", ⟨some "GameB", some ".apb"⟩)]) ∧
    ((Registry.declare emptyRegistry "HandlerY" ⟨some "GameY", some ""⟩).2).isSome = true :=
  c7_registry_invariant emptyRegistry
    [("HandlerA", ⟨some "GameA", some ".apa"⟩), ("HandlerB", ⟨some "GameB", some ".apb"⟩)]
    "HandlerY" "GameY" (fun p hp => absurd hp (List.not_mem_nil p))

/-- Looking up the key just set by `assocSet` yields the new value. -/
theorem assocGet_assocSet_self {α : Type} (l : List (String × α)) (key : String) (v : α) :
    assocGet (assocSet l key v) key = some v := by
  induction l with
  | nil => simp [assocSet, assocGet]
  | cons a rest ih =>
    obtain ⟨k, w⟩ := a
    by_cases h : k = key
    · simp [assocSet, h, assocGet]
    · simp [assocSet, h, assocGet, ih]

/-- Claim C8 counterexample: handler A caches its bytes first; handler B, a
concrete subclass of A, then resolves `source_data` through the inheritance
chain, returns A's bytes and never invokes its own `get_source_data` (which
would produce different bytes) — so distinct concrete types do not each
compute their own. -/
theorem c8_counterexample :
    getSourceDataWithCache c8gsd [] ⟨"HandlerA", ["HandlerA", "APDeltaPatch"]⟩
      = ([("HandlerA", [1])], [1], true) ∧
    getSourceDataWithCache c8gsd [("HandlerA", [1])]
        ⟨"HandlerB", ["HandlerB", "HandlerA", "APDeltaPatch"]⟩
      = ([("HandlerA", [1])], [1], false) ∧
    c8gsd "HandlerB" = [2] :=
  ⟨rfl, rfl, rfl⟩

/-- Claim C8 amended: on one and the same handler type (whose resolution
order starts with itself, as Python guarantees), a second
`get_source_data_with_cache` call invokes `get_source_data` zero times and
returns byte-identical results; but memoization follows the inheritance
chain, so a concrete type whose ancestor has already cached reuses the
ancestor's bytes instead of computing its own. -/
theorem c8_cache_idempotent (gsd : String → List Nat) (cache : SrcCache) (cls : HandlerCls)
    (rest : List String) (hmro : cls.mro = cls.cname :: rest) :
    (getSourceDataWithCache gsd (getSourceDataWithCache gsd cache cls).1 cls).2.1
      = (getSourceDataWithCache gsd cache cls).2.1 ∧
    (getSourceDataWithCache gsd (getSourceDataWithCache gsd cache cls).1 cls).2.2 = false := by
  cases h : mroLookup cache cls.mro with
  | some v => simp [getSourceDataWithCache, h]
  | none =>
    have h2 : mroLookup (assocSet cache cls.cname (gsd cls.cname)) cls.mro
        = some (gsd cls.cname) := by
      rw [hmro]
      simp [mroLookup, assocGet_assocSet_self]
    simp [getSourceDataWithCache, h, h2]

/-- Claim C8 witness: a concrete second call on the same handler type returns
the same bytes and does not invoke the derivation again. -/
theorem c8_cache_idempotent_witness :
    (getSourceDataWithCache (fun _ => [7]) (getSourceDataWithCache (fun _ => [7]) [] c8wCls).1
        c8wCls).2.1
      = (getSourceDataWithCache (fun _ => [7]) [] c8wCls).2.1 ∧
    (getSourceDataWithCache (fun _ => [7]) (getSourceDataWithCache (fun _ => [7]) [] c8wCls).1
        c8wCls).2.2 = false :=
  c8_cache_idempotent (fun _ => [7]) [] c8wCls ["APDeltaPatch"] rfl

/-- `read_contents` never touches the bound path: every branch of the parse
leaves `path` as it was. -/
theorem readContents_path (c : APContainer) (ar : Archive) :
    (APContainer.readContents c ar).1.path = c.path := by
  unfold APContainer.readContents
  (repeat' split) <;> rfl

/-- The `InvalidDataError` re-wrap changes only the error component, never
the instance state. -/
theorem readWrap_fst {σ : Type} (p : σ × Option String) : (readWrap p).1 = p.1 := by
  rcases p with ⟨st, err⟩
  cases err <;> rfl

/-- Claim C10: a truthy explicit file argument makes `write` and `read`
rebind the instance path to the opened archive's filename (the path string
of a named file, the name attribute — `None` for an in-memory stream — of a
stream), while calls without an argument leave the bound path unchanged. -/
theorem c10_path_rebinding (c : APContainer) (f : PyFile) (game : Option String)
    (fs : String → Option Archive) (hf : pyTruthyFile f = true) :
    (∀ c1 ar, APContainer.write c (some f) game = .ok (c1, ar) → c1.path = zfFilename f) ∧
    (∀ ar, openArchive fs f = some ar →
      (APContainer.read c (some f) fs).1.path = zfFilename f) ∧
    (∀ c1 ar, APContainer.write c none game = .ok (c1, ar) → c1.path = c.path) ∧
    (APContainer.read c none fs).1.path = c.path := by
  refine ⟨?_, ?_, ?_, ?_⟩
  · intro c1 ar h
    simp only [APContainer.write, resolveFile, hf, if_true] at h
    obtain ⟨h1, h2⟩ := (Prod.mk.injEq ..).mp (Except.ok.inj h)
    rw [← h1]
  · intro ar hopen
    simp only [APContainer.read, resolveFile, hf, if_true, hopen]
    exact (congrArg APContainer.path
        (readWrap_fst (APContainer.readContents { c with path := zfFilename f } ar))).trans
      (readContents_path { c with path := zfFilename f } ar)
  · intro c1 ar h
    simp only [APContainer.write, resolveFile] at h
    cases hp : c.path with
    | none => rw [hp] at h; simp at h
    | some p =>
      rw [hp] at h
      simp only [Option.map_some'] at h
      by_cases ht : pyTruthyFile (.named p)
      · simp only [ht, if_true] at h
        obtain ⟨h1, h2⟩ := (Prod.mk.injEq ..).mp (Except.ok.inj h)
        rw [← h1, hp]
      · simp only [ht, if_false] at h
        cases h
  · simp only [APContainer.read, resolveFile]
    cases hp : c.path with
    | none => exact hp
    | some p =>
      simp only [Option.map_some']
      by_cases ht : pyTruthyFile (.named p)
      · simp only [ht, if_true]
        cases hopen : openArchive fs (.named p) with
        | none => exact hp
        | some ar =>
          exact (congrArg APContainer.path
              (readWrap_fst (APContainer.readContents c ar))).trans
            ((readContents_path c ar).trans hp)
      · simp only [ht, Bool.false_eq_true, if_false]
        exact hp

/-- Claim C10 witness: an explicit named file rebinds the path even though
the instance was constructed with a different one, and an argument-less read
leaves the bound path alone. -/
theorem c10_path_rebinding_witness :
    (APContainer.read c10wC (some (.named "w.zip")) c10wFs).1.path = some "w.zip" ∧
    (APContainer.read c10wC none c10wFs).1.path = c10wC.path :=
  ⟨(c10_path_rebinding c10wC (.named "w.zip") none c10wFs rfl).2.1 [] rfl,
   (c10_path_rebinding c10wC (.named "w.zip") none c10wFs rfl).2.2.2⟩

/-- Claim C2 counterexample: an instance holding a loaded, zero-length delta
still triggers a full read (Python tests `not self.delta`, and empty bytes
are falsy), so "performs no read when a delta is already loaded" fails. -/
theorem c2_counterexample :
    c2State.delta = some [] ∧
    APDeltaPatch.patchOp (fun b del => b ++ del) (fun _ => [1]) ⟨"HandlerD", ["HandlerD"]⟩ []
        c2State c2Fs "out.bin" =
      .ok ⟨{ c2State with delta := some [9] }, [("HandlerD", [1])], true, "out.bin", [1, 9]⟩ :=
  ⟨rfl, rfl⟩

/-- Claim C2 amended: `patch(target_path)` performs a full `read()` exactly
when the in-memory delta is absent or empty (Python-falsy), and no read when
a non-empty delta is loaded; every successful call then writes exactly
`DeltaCodec.apply(cached base asset, loaded delta)` to the target path. -/
theorem c2_patch_applies_delta (bspatch : List Nat → List Nat → List Nat)
    (gsd : String → List Nat) (cls : HandlerCls) (cache : SrcCache)
    (d : APDeltaPatch) (fs : String → Option Archive) (target : String) (r : PatchResult)
    (hok : APDeltaPatch.patchOp bspatch gsd cls cache d fs target = .ok r) :
    r.didRead = !pyTruthyBytes d.delta ∧
    r.targetPath = target ∧
    r.cache = (getSourceDataWithCache gsd cache cls).1 ∧
    ∃ del, r.state.delta = some del ∧
      r.written = bspatch (getSourceDataWithCache gsd cache cls).2.1 del ∧
      (pyTruthyBytes d.delta = true → r.state = d) := by
  unfold APDeltaPatch.patchOp at hok
  by_cases ht : pyTruthyBytes d.delta
  · rw [if_pos ht] at hok
    unfold patchFinish at hok
    cases hd : d.delta with
    | none => rw [hd] at hok; exact (Except.noConfusion hok)
    | some del =>
      rw [hd] at hok
      obtain rfl : r = _ := (Except.ok.inj hok).symm
      have ht2 : pyTruthyBytes (some del) = true := by rw [← hd]; exact ht
      refine ⟨?_, rfl, rfl, del, hd, rfl, fun _ => rfl⟩
      simp [ht2]
  · rw [if_neg ht] at hok
    cases hread : APDeltaPatch.read d none fs with
    | mk d1 err =>
      rw [hread] at hok
      cases err with
      | some e => exact (Except.noConfusion hok)
      | none =>
        replace hok : patchFinish bspatch gsd cls cache d1 true target = .ok r := hok
        unfold patchFinish at hok
        cases hd : d1.delta with
        | none => rw [hd] at hok; exact (Except.noConfusion hok)
        | some del =>
          rw [hd] at hok
          obtain rfl : r = _ := (Except.ok.inj hok).symm
          refine ⟨?_, rfl, rfl, del, hd, rfl, fun hcontra => absurd hcontra ht⟩
          have hfalse : pyTruthyBytes d.delta = false := by
            cases hq : pyTruthyBytes d.delta
            · rfl
            · exact absurd hq ht
          simp [hfalse]

/-- Claim C2 witness: with a loaded non-empty delta, a concrete `patch` run
performs no read and writes apply(base, delta) to the target. -/
theorem c2_patch_applies_delta_witness :
    c2wRes.didRead = !pyTruthyBytes c2wD.delta ∧
    c2wRes.targetPath = "t.bin" ∧
    c2wRes.cache = (getSourceDataWithCache (fun _ => [1]) [] ⟨"HandlerD", ["HandlerD"]⟩).1 :=
  ⟨(c2_patch_applies_delta (fun b del => b ++ del) (fun _ => [1]) ⟨"HandlerD", ["HandlerD"]⟩ []
      c2wD (fun _ => none) "t.bin" c2wRes rfl).1,
   (c2_patch_applies_delta (fun b del => b ++ del) (fun _ => [1]) ⟨"HandlerD", ["HandlerD"]⟩ []
      c2wD (fun _ => none) "t.bin" c2wRes rfl).2.1,
   (c2_patch_applies_delta (fun b del => b ++ del) (fun _ => [1]) ⟨"HandlerD", ["HandlerD"]⟩ []
      c2wD (fun _ => none) "t.bin" c2wRes rfl).2.2.1⟩

/-- Claim C6 counterexample: the archive written by a DeltaPatch contains
exactly the entries `archipelago.json` and `delta.bsdiff4`; no entry named
`delta.bin` exists. -/
theorem c6_counterexample :
    (APDeltaPatch.writeContents (fun b t => b ++ t) (fun _ => [0]) ⟨"HandlerE", ["HandlerE"]⟩ []
        c6d (some "G") .pynone ".sfc" ".apx" c6bfs).map
      (fun res => (res.1.map Entry.ename, getEntry res.1 "delta.bin")) =
      .ok (["archipelago.json", "delta.bsdiff4"], none) := rfl

/-- Claim C6 amended: the delta bytes are stored as the archive entry named
`delta.bsdiff4` (not `delta.bin`) in uncompressed `ZIP_STORED` mode, holding
exactly diff(cached base, patched bytes); and a successful `read_contents`
loads the delta from that same entry name. -/
theorem c6_delta_entry (diff : List Nat → List Nat → List Nat) (gsd : String → List Nat)
    (cls : HandlerCls) (cache : SrcCache) (d : APDeltaPatch) (game : Option String)
    (proc : Procedure) (rfe pfe : String) (bfs : String → Option (List Nat))
    (patched : List Nat) (hp : bfs d.patched_path = some patched) :
    APDeltaPatch.writeContents diff gsd cls cache d game proc rfe pfe bfs =
      .ok ([⟨"archipelago.json",
             .manifestData (APDeltaPatch.getManifest d game proc rfe pfe), .deflated⟩,
            ⟨"delta.bsdiff4",
             .bytes (diff (getSourceDataWithCache gsd cache cls).2.1 patched), .stored⟩],
           (getSourceDataWithCache gsd cache cls).1) ∧
    ∀ (d0 : APDeltaPatch) (ar : Archive) (d1 : APDeltaPatch),
      APDeltaPatch.readContents d0 ar = (d1, none) →
      d1.delta = (getEntry ar "delta.bsdiff4").map EntryData.rawBytes := by
  constructor
  · simp only [APDeltaPatch.writeContents, hp]
  · intro d0 ar d1 hok
    unfold APDeltaPatch.readContents at hok
    cases hrc : APContainer.readContents (APDeltaPatch.toContainer d0) ar with
    | mk c1 err =>
      rw [hrc] at hok
      cases err with
      | some e => simp at hok
      | none =>
        cases hge : getEntry ar "delta.bsdiff4" with
        | none => rw [hge] at hok; simp at hok
        | some ed =>
          rw [hge] at hok
          simp only [Prod.mk.injEq] at hok
          obtain ⟨h1, -⟩ := hok
          rw [← h1]
          rfl

/-- Claim C6 witness: a concrete DeltaPatch write produces the manifest entry
plus the stored `delta.bsdiff4` entry holding diff(base, patched). -/
theorem c6_delta_entry_witness :
    APDeltaPatch.writeContents (fun b t => b ++ t) (fun _ => [0]) ⟨"HandlerE", ["HandlerE"]⟩ []
        c6d (some "G") .pynone ".sfc" ".apx" c6bfs =
      .ok ([⟨"archipelago.json",
             .manifestData (APDeltaPatch.getManifest c6d (some "G") .pynone ".sfc" ".apx"),
             .deflated⟩,
            ⟨"delta.bsdiff4",
             .bytes ((fun b t => b ++ t)
               (getSourceDataWithCache (fun _ => [0]) [] ⟨"HandlerE", ["HandlerE"]⟩).2.1 [7]),
             .stored⟩],
           (getSourceDataWithCache (fun _ => [0]) [] ⟨"HandlerE", ["HandlerE"]⟩).1) :=
  (c6_delta_entry (fun b t => b ++ t) (fun _ => [0]) ⟨"HandlerE", ["HandlerE"]⟩ [] c6d (some "G")
    .pynone ".sfc" ".apx" c6bfs [7] rfl).1
